import Mathlib

set_option maxHeartbeats 1000000

/-!
Shallow embedding of the pywa-mcp-server operation handlers.

The repository wraps an external WhatsApp transport client: each MCP tool
handler validates its payload, calls the transport, and wraps the outcome in
a uniform `{success, ...}` dictionary envelope.  We embed:

  * the returned dictionaries as association lists of `RVal` values;
  * a transport call as a value of `Outcome α`: either a returned value or a
    raised exception carrying its stringified message;
  * every handler of `src/tools/messaging.py`, `src/tools/interactive.py`
    and `src/tools/templates.py` as a total Lean function from its inputs
    and the behaviour of the (at most one) transport call it makes to the
    pair (returned dictionary, list of transport calls actually made);
  * the startup logic of `src/server.py`.
-/

/-- A JSON-like value appearing in a handler response dictionary. -/
inductive RVal where
  | str (s : String)
  | bool (b : Bool)
  | null
  | nat (n : Nat)
  | list (xs : List RVal)
  | dict (fields : List (String × RVal))

/-- Look a key up in a response dictionary (first binding wins, as in a
Python dict built by successive insertions of distinct keys). -/
def lookupField (d : List (String × RVal)) (k : String) : Option RVal :=
  (d.find? (fun p => p.fst == k)).map (fun p => p.snd)

/-- Python `None`-or-string rendered into a response value. -/
def optRVal : Option String → RVal
  | none => RVal.null
  | some s => RVal.str s

/-- Behaviour of one call into the external transport: it either returns a
value or raises an exception whose `str()` is `msg` (possibly empty, as for
`Exception()`). -/
inductive Outcome (α : Type) where
  | ret (r : α)
  | raise (msg : String)

/-- Model of a transport return value as the handlers observe it: its Python
truthiness, its optional `id` attribute, and its `str()` rendering.  The
transport returning `None` is the value `⟨false, none, "None"⟩`. -/
structure SentMessage where
  truthy : Bool
  idAttr : Option String
  toStr : String
deriving DecidableEq

/-- The expression every send handler uses on the transport return value:
message_id is the id attribute when the result exposes one, else the string
rendering of the whole result, and None when the result is falsy. -/
def extractMessageId (result : SentMessage) : Option String :=
  if result.truthy then some (result.idAttr.getD result.toStr) else none

/-- Modelled from the spec wording of the identifier policy (spec section
4.2): if the return value is absent or falsy the identifier is null;
otherwise the identifier field when it is exposed, else the string rendering
of the whole return value. -/
def specMessageIdPolicy (result : SentMessage) : Option String :=
  if result.truthy = false then none
  else
    match result.idAttr with
    | some i => some i
    | none => some result.toStr

/-- The failure envelope: success False together with the stringified
error. -/
def errorEnvelope (msg : String) : List (String × RVal) :=
  [("success", RVal.bool false), ("error", RVal.str msg)]

/-- The plain success envelope: success True together with the message
id. -/
def successEnvelope (message_id : Option String) : List (String × RVal) :=
  [("success", RVal.bool true), ("message_id", optRVal message_id)]

/-- Python truthiness of an optional-string argument: `None` and `""` are
falsy. -/
def optTextTooLong (limit : Nat) : Option String → Bool
  | none => false
  | some s => !(s == "") && decide (limit < s.length)

/-- Arguments of one `wa_client.send_message` text call. -/
structure SendMessageCall where
  «to» : String
  text : String
  header : Option String
  footer : Option String
  preview_url : Bool
  reply_to_message_id : Option String
deriving DecidableEq

/-- Handler `send_message` of `src/tools/messaging.py`.  The transport is
called unconditionally; on return the envelope carries the extracted message
id and echoes the recipient, on raise the stringified error. -/
def send_message («to» text : String) (header footer : Option String)
    (preview_url : Bool) (reply_to_message_id : Option String)
    (tr : Outcome SentMessage) : List (String × RVal) × List SendMessageCall :=
  match tr with
  | Outcome.raise msg =>
      (errorEnvelope msg,
       [⟨«to», text, header, footer, preview_url, reply_to_message_id⟩])
  | Outcome.ret result =>
      ([("success", RVal.bool true),
        ("message_id", optRVal (extractMessageId result)),
        ("to", RVal.str «to»)],
       [⟨«to», text, header, footer, preview_url, reply_to_message_id⟩])

/-- Model of the `indicate_typing` transport return value: its truthiness
and its optional `success` attribute. -/
structure TypingResult where
  truthy : Bool
  successAttr : Option Bool
deriving DecidableEq

/-- Arguments of one `wa_client.indicate_typing` call. -/
structure TypingCall where
  message_id : String
  sender : Option String
deriving DecidableEq

/-- Handler `indicate_typing` of `src/tools/messaging.py`: the success
status is the success attribute of the result when it exposes one, else the
result truthiness; the envelope is success True, typing_indicated set to
that status, and the echoed message id. -/
def indicate_typing (message_id : String) (sender : Option String)
    (tr : Outcome TypingResult) : List (String × RVal) × List TypingCall :=
  match tr with
  | Outcome.raise msg => (errorEnvelope msg, [⟨message_id, sender⟩])
  | Outcome.ret result =>
      let success_status := result.successAttr.getD result.truthy
      ([("success", RVal.bool true),
        ("typing_indicated", RVal.bool success_status),
        ("message_id", RVal.str message_id)],
       [⟨message_id, sender⟩])

/-- Arguments of one `wa_client.send_image` call. -/
structure SendImageCall where
  «to» : String
  image : String
  caption : Option String
  footer : Option String
  reply_to_message_id : Option String
deriving DecidableEq

/-- Handler `send_image` of `src/tools/messaging.py`. -/
def send_image («to» image : String) (caption footer reply_to_message_id : Option String)
    (tr : Outcome SentMessage) : List (String × RVal) × List SendImageCall :=
  match tr with
  | Outcome.raise msg =>
      (errorEnvelope msg, [⟨«to», image, caption, footer, reply_to_message_id⟩])
  | Outcome.ret result =>
      (successEnvelope (extractMessageId result),
       [⟨«to», image, caption, footer, reply_to_message_id⟩])

/-- Arguments of one `wa_client.send_video` call. -/
structure SendVideoCall where
  «to» : String
  video : String
  caption : Option String
  footer : Option String
  reply_to_message_id : Option String
deriving DecidableEq

/-- Handler `send_video` of `src/tools/messaging.py`. -/
def send_video («to» video : String) (caption footer reply_to_message_id : Option String)
    (tr : Outcome SentMessage) : List (String × RVal) × List SendVideoCall :=
  match tr with
  | Outcome.raise msg =>
      (errorEnvelope msg, [⟨«to», video, caption, footer, reply_to_message_id⟩])
  | Outcome.ret result =>
      (successEnvelope (extractMessageId result),
       [⟨«to», video, caption, footer, reply_to_message_id⟩])

/-- Arguments of one `wa_client.send_document` call. -/
structure SendDocumentCall where
  «to» : String
  document : String
  filename : Option String
  caption : Option String
  footer : Option String
  reply_to_message_id : Option String
deriving DecidableEq

/-- Handler `send_document` of `src/tools/messaging.py`. -/
def send_document («to» document : String)
    (filename caption footer reply_to_message_id : Option String)
    (tr : Outcome SentMessage) : List (String × RVal) × List SendDocumentCall :=
  match tr with
  | Outcome.raise msg =>
      (errorEnvelope msg, [⟨«to», document, filename, caption, footer, reply_to_message_id⟩])
  | Outcome.ret result =>
      (successEnvelope (extractMessageId result),
       [⟨«to», document, filename, caption, footer, reply_to_message_id⟩])

/-- Arguments of one `wa_client.send_audio` call. -/
structure SendAudioCall where
  «to» : String
  audio : String
  reply_to_message_id : Option String
deriving DecidableEq

/-- Handler `send_audio` of `src/tools/messaging.py`. -/
def send_audio («to» audio : String) (reply_to_message_id : Option String)
    (tr : Outcome SentMessage) : List (String × RVal) × List SendAudioCall :=
  match tr with
  | Outcome.raise msg =>
      (errorEnvelope msg, [⟨«to», audio, reply_to_message_id⟩])
  | Outcome.ret result =>
      (successEnvelope (extractMessageId result), [⟨«to», audio, reply_to_message_id⟩])

/-- Arguments of one `wa_client.send_sticker` call. -/
structure SendStickerCall where
  «to» : String
  sticker : String
  reply_to_message_id : Option String
deriving DecidableEq

/-- Handler `send_sticker` of `src/tools/messaging.py`. -/
def send_sticker («to» sticker : String) (reply_to_message_id : Option String)
    (tr : Outcome SentMessage) : List (String × RVal) × List SendStickerCall :=
  match tr with
  | Outcome.raise msg =>
      (errorEnvelope msg, [⟨«to», sticker, reply_to_message_id⟩])
  | Outcome.ret result =>
      (successEnvelope (extractMessageId result), [⟨«to», sticker, reply_to_message_id⟩])

/-- Arguments of one `wa_client.send_location` call; the coordinates are
passed through untouched, so we model them as Lean floats. -/
structure SendLocationCall where
  «to» : String
  latitude : Float
  longitude : Float
  name : Option String
  address : Option String
  reply_to_message_id : Option String

/-- Handler `send_location` of `src/tools/messaging.py`. -/
def send_location («to» : String) (latitude longitude : Float)
    (name address reply_to_message_id : Option String)
    (tr : Outcome SentMessage) : List (String × RVal) × List SendLocationCall :=
  match tr with
  | Outcome.raise msg =>
      (errorEnvelope msg, [⟨«to», latitude, longitude, name, address, reply_to_message_id⟩])
  | Outcome.ret result =>
      (successEnvelope (extractMessageId result),
       [⟨«to», latitude, longitude, name, address, reply_to_message_id⟩])

/-- Arguments of one `wa_client.request_location` call. -/
structure RequestLocationCall where
  «to» : String
  text : String
  reply_to_message_id : Option String
deriving DecidableEq

/-- Handler `request_location` of `src/tools/messaging.py`. -/
def request_location («to» text : String) (reply_to_message_id : Option String)
    (tr : Outcome SentMessage) : List (String × RVal) × List RequestLocationCall :=
  match tr with
  | Outcome.raise msg =>
      (errorEnvelope msg, [⟨«to», text, reply_to_message_id⟩])
  | Outcome.ret result =>
      (successEnvelope (extractMessageId result), [⟨«to», text, reply_to_message_id⟩])

/-- A pywa `Contact.Name` value as `send_contact` builds it. -/
structure ContactName where
  formatted_name : String
deriving DecidableEq

/-- A pywa `Contact.Phone` value as `send_contact` builds it. -/
structure ContactPhone where
  phone : String
deriving DecidableEq

/-- A pywa `Contact` value as `send_contact` builds it. -/
structure Contact where
  name : ContactName
  phones : List ContactPhone
deriving DecidableEq

/-- Arguments of one `wa_client.send_contact` call. -/
structure SendContactCall where
  «to» : String
  contact : Contact
  reply_to_message_id : Option String
deriving DecidableEq

/-- Handler `send_contact` of `src/tools/messaging.py`: builds a contact
card with exactly one name and one phone entry, then dispatches it. -/
def send_contact («to» contact_name contact_phone : String)
    (reply_to_message_id : Option String)
    (tr : Outcome SentMessage) : List (String × RVal) × List SendContactCall :=
  let contact : Contact := ⟨⟨contact_name⟩, [⟨contact_phone⟩]⟩
  match tr with
  | Outcome.raise msg =>
      (errorEnvelope msg, [⟨«to», contact, reply_to_message_id⟩])
  | Outcome.ret result =>
      (successEnvelope (extractMessageId result), [⟨«to», contact, reply_to_message_id⟩])

/-- Arguments of one `wa_client.send_reaction` call. -/
structure SendReactionCall where
  «to» : String
  emoji : String
  message_id : String
  sender : Option String
deriving DecidableEq

/-- The expression of the reaction and read-status handlers: the string
rendering of the result when it is truthy, else None. -/
def extractResultData (result : SentMessage) : Option String :=
  if result.truthy then some result.toStr else none

/-- Handler `send_reaction` of `src/tools/messaging.py`. -/
def send_reaction («to» emoji message_id : String) (sender : Option String)
    (tr : Outcome SentMessage) : List (String × RVal) × List SendReactionCall :=
  match tr with
  | Outcome.raise msg =>
      (errorEnvelope msg, [⟨«to», emoji, message_id, sender⟩])
  | Outcome.ret result =>
      ([("success", RVal.bool true), ("result", optRVal (extractResultData result))],
       [⟨«to», emoji, message_id, sender⟩])

/-- Arguments of one `wa_client.remove_reaction` call. -/
structure RemoveReactionCall where
  «to» : String
  message_id : String
  sender : Option String
deriving DecidableEq

/-- Handler `remove_reaction` of `src/tools/messaging.py`. -/
def remove_reaction («to» message_id : String) (sender : Option String)
    (tr : Outcome SentMessage) : List (String × RVal) × List RemoveReactionCall :=
  match tr with
  | Outcome.raise msg =>
      (errorEnvelope msg, [⟨«to», message_id, sender⟩])
  | Outcome.ret result =>
      ([("success", RVal.bool true), ("result", optRVal (extractResultData result))],
       [⟨«to», message_id, sender⟩])

/-- Arguments of one `wa_client.mark_message_as_read` call. -/
structure MarkReadCall where
  message_id : String
  sender : Option String
deriving DecidableEq

/-- Handler `mark_message_as_read` of `src/tools/messaging.py`. -/
def mark_message_as_read (message_id : String) (sender : Option String)
    (tr : Outcome SentMessage) : List (String × RVal) × List MarkReadCall :=
  match tr with
  | Outcome.raise msg => (errorEnvelope msg, [⟨message_id, sender⟩])
  | Outcome.ret result =>
      ([("success", RVal.bool true), ("result", optRVal (extractResultData result))],
       [⟨message_id, sender⟩])

/-- Model of the `upload_media` transport return value: its `str()`
rendering and the name of its Python type. -/
structure MediaObj where
  toStr : String
  typeName : String
deriving DecidableEq

/-- Arguments of one `wa_client.upload_media` call. -/
structure UploadMediaCall where
  media : String
  mime_type : Option String
deriving DecidableEq

/-- Handler `upload_media` of `src/tools/messaging.py`. -/
def upload_media (media_path : String) (mime_type : Option String)
    (tr : Outcome MediaObj) : List (String × RVal) × List UploadMediaCall :=
  match tr with
  | Outcome.raise msg => (errorEnvelope msg, [⟨media_path, mime_type⟩])
  | Outcome.ret media_obj =>
      ([("success", RVal.bool true),
        ("media_id", RVal.str media_obj.toStr),
        ("media_type", RVal.str media_obj.typeName)],
       [⟨media_path, mime_type⟩])

/-- A pywa `Button` object: `Button(title=..., callback_data=...)`. -/
structure Button where
  title : String
  callback_data : String
deriving DecidableEq

/-- A `Dict[str, str]` button payload, restricted to the two keys the
handler reads; a missing key is `none`. -/
structure BtnDict where
  id : Option String
  title : Option String
deriving DecidableEq

/-- The button-conversion loop of `send_message_with_buttons`
(`src/tools/interactive.py` lines 70-84): first missing-key check, then the
title-length check, then the id-length check, returning the first error or
the list of converted `Button` objects in input order. -/
def buildButtons : List BtnDict → Except String (List Button)
  | [] => Except.ok []
  | btn :: rest =>
    match btn.id, btn.title with
    | some i, some t =>
      if t.length > 20 then
        Except.error ("Button title \x27" ++ t ++ "\x27 exceeds 20 characters")
      else if i.length > 256 then
        Except.error ("Button ID \x27" ++ i ++ "\x27 exceeds 256 characters")
      else (buildButtons rest).map (fun bs => ⟨t, i⟩ :: bs)
    | _, _ => Except.error "Each button must have \x27id\x27 and \x27title\x27 keys"

/-- Arguments of the `wa_client.send_message` call made by
`send_message_with_buttons`. -/
structure ButtonsCall where
  «to» : String
  text : String
  buttons : List Button
  header : Option String
  footer : Option String
  reply_to_message_id : Option String
deriving DecidableEq

/-- Handler `send_message_with_buttons` of `src/tools/interactive.py`. -/
def send_message_with_buttons («to» text : String) (buttons : List BtnDict)
    (header footer : Option String) (reply_to_message_id : Option String)
    (tr : Outcome SentMessage) : List (String × RVal) × List ButtonsCall :=
  if buttons.length > 3 then (errorEnvelope "Maximum 3 buttons allowed", [])
  else if optTextTooLong 60 header then
    (errorEnvelope "Header text must be max 60 characters", [])
  else if optTextTooLong 60 footer then
    (errorEnvelope "Footer text must be max 60 characters", [])
  else
    match buildButtons buttons with
    | Except.error e => (errorEnvelope e, [])
    | Except.ok button_objects =>
      match tr with
      | Outcome.raise msg =>
          (errorEnvelope msg,
           [⟨«to», text, button_objects, header, footer, reply_to_message_id⟩])
      | Outcome.ret result =>
          (successEnvelope (extractMessageId result),
           [⟨«to», text, button_objects, header, footer, reply_to_message_id⟩])

/-- A pywa `SectionRow` object as the list handler builds it. -/
structure SectionRow where
  title : String
  callback_data : String
  description : Option String
deriving DecidableEq

/-- A pywa `Section` object as the list handler builds it. -/
structure Section where
  title : String
  rows : List SectionRow
deriving DecidableEq

/-- A pywa `SectionList` object as the list handler builds it. -/
structure SectionList where
  button_title : String
  sections : List Section
deriving DecidableEq

/-- A `Dict[str, Any]` row payload, restricted to the keys the handler
reads; a missing key is `none`. -/
structure RowDict where
  id : Option String
  title : Option String
  description : Option String
deriving DecidableEq

/-- A `Dict[str, Any]` section payload, restricted to the keys the handler
reads; a missing key is `none`. -/
structure SectionDict where
  title : Option String
  rows : Option (List RowDict)
deriving DecidableEq

/-- The row-conversion loop of `send_message_with_list`
(`src/tools/interactive.py` lines 196-216): missing-key check, id-length,
title-length, description-length in that order;
`description = row_data.get("description", "")` and the built row carries
`description if description else None`. -/
def buildRows : List RowDict → Except String (List SectionRow)
  | [] => Except.ok []
  | row_data :: rest =>
    match row_data.id, row_data.title with
    | some i, some t =>
      if i.length > 200 then
        Except.error ("Row ID \x27" ++ i ++ "\x27 exceeds 200 characters")
      else if t.length > 24 then
        Except.error ("Row title \x27" ++ t ++ "\x27 exceeds 24 characters")
      else
        let description := row_data.description.getD ""
        if description.length > 72 then
          Except.error ("Row description \x27" ++ description ++ "\x27 exceeds 72 characters")
        else
          (buildRows rest).map
            (fun rs => ⟨t, i, if description == "" then none else some description⟩ :: rs)
    | _, _ => Except.error "Each row must have \x27id\x27 and \x27title\x27 keys"

/-- The section-conversion loop of `send_message_with_list`
(`src/tools/interactive.py` lines 187-222): missing `rows` key check, the
section-title length check with `section_data.get("title", "")`, the row
loop, and `if rows: section_objects.append(...)` so that a section whose
built row list is empty is dropped. -/
def buildSections : List SectionDict → Except String (List Section)
  | [] => Except.ok []
  | section_data :: rest =>
    match section_data.rows with
    | none => Except.error "Each section must have a \x27rows\x27 array"
    | some rowDicts =>
      let section_title := section_data.title.getD ""
      if section_title.length > 24 then
        Except.error ("Section title \x27" ++ section_title ++ "\x27 exceeds 24 characters")
      else
        match buildRows rowDicts with
        | Except.error e => Except.error e
        | Except.ok rows =>
          (buildSections rest).map
            (fun ss => if rows.isEmpty then ss else ⟨section_title, rows⟩ :: ss)

/-- The total row count of `src/tools/interactive.py` line 180: the sum
over all sections of the length of the raw, pre-filtering rows array, a
section without a `rows` key contributing zero. -/
def totalRawRows (sections : List SectionDict) : Nat :=
  (sections.map (fun section_data => (section_data.rows.getD []).length)).sum

/-- Arguments of the `wa_client.send_message` call made by
`send_message_with_list`. -/
structure ListCall where
  «to» : String
  text : String
  buttons : SectionList
  header : Option String
  footer : Option String
  reply_to_message_id : Option String
deriving DecidableEq

/-- Handler `send_message_with_list` of `src/tools/interactive.py`. -/
def send_message_with_list («to» text button_text : String)
    (sections : List SectionDict) (header footer : Option String)
    (reply_to_message_id : Option String)
    (tr : Outcome SentMessage) : List (String × RVal) × List ListCall :=
  if sections.length > 10 then (errorEnvelope "Maximum 10 sections allowed", [])
  else if button_text.length > 20 then
    (errorEnvelope "Button text must be max 20 characters", [])
  else if optTextTooLong 60 header then
    (errorEnvelope "Header text must be max 60 characters", [])
  else if optTextTooLong 60 footer then
    (errorEnvelope "Footer text must be max 60 characters", [])
  else if totalRawRows sections > 10 then
    (errorEnvelope "Maximum 10 rows total across all sections", [])
  else
    match buildSections sections with
    | Except.error e => (errorEnvelope e, [])
    | Except.ok section_objects =>
      let section_list : SectionList := ⟨button_text, section_objects⟩
      match tr with
      | Outcome.raise msg =>
          (errorEnvelope msg,
           [⟨«to», text, section_list, header, footer, reply_to_message_id⟩])
      | Outcome.ret result =>
          (successEnvelope (extractMessageId result),
           [⟨«to», text, section_list, header, footer, reply_to_message_id⟩])

/-- A template parameter dictionary, treated as opaque by the handler. -/
def ParamDict : Type := List (String × RVal)

/-- Arguments of one `wa_client.send_template` call. -/
structure SendTemplateCall where
  «to» : String
  name : String
  language : String
  params : List ParamDict
  reply_to_message_id : Option String

/-- Handler `send_template` of `src/tools/templates.py`: forwards
`params or []` (Python `or`: `None` and the empty list both yield `[]`) and
returns an envelope echoing the template name and the recipient. -/
def send_template («to» name : String) (language : String)
    (params : Option (List ParamDict)) (reply_to_message_id : Option String)
    (tr : Outcome SentMessage) : List (String × RVal) × List SendTemplateCall :=
  match tr with
  | Outcome.raise msg =>
      (errorEnvelope msg, [⟨«to», name, language, params.getD [], reply_to_message_id⟩])
  | Outcome.ret result =>
      ([("success", RVal.bool true),
        ("message_id", optRVal (extractMessageId result)),
        ("template", RVal.str name),
        ("to", RVal.str «to»)],
       [⟨«to», name, language, params.getD [], reply_to_message_id⟩])

/-- A template object returned by the transport, as `get_templates`
observes it: five optional attributes probed with an empty-string default. -/
structure TemplateObj where
  id : Option String
  name : Option String
  language : Option String
  status : Option String
  category : Option String
deriving DecidableEq

/-- The per-template projection of `get_templates`: every field defaults to
the empty string when the attribute is absent. -/
def templateProjection (template : TemplateObj) : List (String × RVal) :=
  [("id", RVal.str (template.id.getD "")),
   ("name", RVal.str (template.name.getD "")),
   ("language", RVal.str (template.language.getD "")),
   ("status", RVal.str (template.status.getD "")),
   ("category", RVal.str (template.category.getD ""))]

/-- Arguments of one `wa_client.get_templates` call. -/
structure GetTemplatesCall where
  limit : Int
  name : Option String
deriving DecidableEq

/-- Handler `get_templates` of `src/tools/templates.py`. -/
def get_templates (limit : Int) (name : Option String)
    (tr : Outcome (List TemplateObj)) : List (String × RVal) × List GetTemplatesCall :=
  match tr with
  | Outcome.raise msg => (errorEnvelope msg, [⟨limit, name⟩])
  | Outcome.ret templates =>
      let template_list := templates.map templateProjection
      ([("success", RVal.bool true),
        ("templates", RVal.list (template_list.map RVal.dict)),
        ("count", RVal.nat template_list.length)],
       [⟨limit, name⟩])

/-- The process environment as `src/server.py` reads it: the values of the
two credential variables, `none` when unset. -/
structure Env where
  WHATSAPP_PHONE_ID : Option String
  WHATSAPP_TOKEN : Option String
deriving DecidableEq

/-- Python falsiness of an `os.getenv` result: `None` or the empty string. -/
def envFalsy : Option String → Bool
  | none => true
  | some s => s == ""

/-- The pywa client as `server.py` constructs it. -/
structure WhatsAppClient where
  phone_id : String
  token : String
deriving DecidableEq

/-- Function `get_whatsapp_client` of `src/server.py` (first call, with
`wa_client` still unset): raises `ValueError` (modelled as `Except.error`
with the message) when either credential is falsy, otherwise constructs the
client from the two environment values. -/
def get_whatsapp_client (env : Env) : Except String WhatsAppClient :=
  if envFalsy env.WHATSAPP_PHONE_ID || envFalsy env.WHATSAPP_TOKEN then
    Except.error
      "Missing required environment variables: WHATSAPP_PHONE_ID and WHATSAPP_TOKEN"
  else
    Except.ok ⟨env.WHATSAPP_PHONE_ID.getD "", env.WHATSAPP_TOKEN.getD ""⟩

/-- The 18 tool names, in registration order (`register_all_tools` runs the
messaging, interactive, then template registrations). -/
def allToolNames : List String :=
  ["send_message", "send_image", "send_video", "send_document", "send_audio",
   "send_sticker", "send_location", "request_location", "send_contact",
   "send_reaction", "remove_reaction", "mark_message_as_read",
   "indicate_typing", "upload_media",
   "send_message_with_buttons", "send_message_with_list",
   "send_template", "get_templates"]

/-- The observable state after the module-level startup block of
`src/server.py`: which client (if any) was constructed and which tools were
registered against it. -/
structure ServerState where
  client : Option WhatsAppClient
  registered_tools : List String
deriving DecidableEq

/-- The module-level startup block of `src/server.py`: construct the client
once; on a configuration `ValueError` log it and register nothing; on
success register all tools against that single client. -/
def serverStartup (env : Env) : ServerState :=
  match get_whatsapp_client env with
  | Except.error _ => ⟨none, []⟩
  | Except.ok c => ⟨some c, allToolNames⟩

/-!  ## Envelope shape -/

/-- The envelope discipline exactly as the spec claims it: a success
envelope containing `success: true`, or a failure envelope containing
`success: false` and a NON-EMPTY `error` string. -/
def envelopeWellFormed (d : List (String × RVal)) : Prop :=
  lookupField d "success" = some (RVal.bool true) ∨
    (lookupField d "success" = some (RVal.bool false) ∧
      ∃ m, m ≠ "" ∧ lookupField d "error" = some (RVal.str m))

/-- The envelope discipline the code actually guarantees: a success
envelope containing `success: true`, or a failure envelope containing
`success: false` and a string `error` field (possibly empty when the caught
exception stringifies to the empty string). -/
def envelopeShaped (d : List (String × RVal)) : Prop :=
  lookupField d "success" = some (RVal.bool true) ∨
    (lookupField d "success" = some (RVal.bool false) ∧
      ∃ m, lookupField d "error" = some (RVal.str m))

theorem envelopeShaped_error (msg : String) : envelopeShaped (errorEnvelope msg) :=
  Or.inr ⟨rfl, msg, rfl⟩

theorem envelopeShaped_success (rest : List (String × RVal)) :
    envelopeShaped (("success", RVal.bool true) :: rest) :=
  Or.inl rfl

theorem shaped_send_message (a text : String) (h f : Option String) (p : Bool)
    (rid : Option String) (tr : Outcome SentMessage) :
    envelopeShaped (send_message a text h f p rid tr).1 := by
  cases tr with
  | raise msg => exact envelopeShaped_error msg
  | ret result => exact envelopeShaped_success _

theorem shaped_send_image (a b : String) (c f rid : Option String)
    (tr : Outcome SentMessage) : envelopeShaped (send_image a b c f rid tr).1 := by
  cases tr with
  | raise msg => exact envelopeShaped_error msg
  | ret result => exact envelopeShaped_success _

theorem shaped_send_video (a b : String) (c f rid : Option String)
    (tr : Outcome SentMessage) : envelopeShaped (send_video a b c f rid tr).1 := by
  cases tr with
  | raise msg => exact envelopeShaped_error msg
  | ret result => exact envelopeShaped_success _

theorem shaped_send_document (a b : String) (fn c f rid : Option String)
    (tr : Outcome SentMessage) : envelopeShaped (send_document a b fn c f rid tr).1 := by
  cases tr with
  | raise msg => exact envelopeShaped_error msg
  | ret result => exact envelopeShaped_success _

theorem shaped_send_audio (a b : String) (rid : Option String)
    (tr : Outcome SentMessage) : envelopeShaped (send_audio a b rid tr).1 := by
  cases tr with
  | raise msg => exact envelopeShaped_error msg
  | ret result => exact envelopeShaped_success _

theorem shaped_send_sticker (a b : String) (rid : Option String)
    (tr : Outcome SentMessage) : envelopeShaped (send_sticker a b rid tr).1 := by
  cases tr with
  | raise msg => exact envelopeShaped_error msg
  | ret result => exact envelopeShaped_success _

theorem shaped_send_location (a : String) (la lo : Float)
    (n ad rid : Option String) (tr : Outcome SentMessage) :
    envelopeShaped (send_location a la lo n ad rid tr).1 := by
  cases tr with
  | raise msg => exact envelopeShaped_error msg
  | ret result => exact envelopeShaped_success _

theorem shaped_request_location (a b : String) (rid : Option String)
    (tr : Outcome SentMessage) : envelopeShaped (request_location a b rid tr).1 := by
  cases tr with
  | raise msg => exact envelopeShaped_error msg
  | ret result => exact envelopeShaped_success _

theorem shaped_send_contact (a n p : String) (rid : Option String)
    (tr : Outcome SentMessage) : envelopeShaped (send_contact a n p rid tr).1 := by
  cases tr with
  | raise msg => exact envelopeShaped_error msg
  | ret result => exact envelopeShaped_success _

theorem shaped_send_reaction (a e m : String) (s : Option String)
    (tr : Outcome SentMessage) : envelopeShaped (send_reaction a e m s tr).1 := by
  cases tr with
  | raise msg => exact envelopeShaped_error msg
  | ret result => exact envelopeShaped_success _

theorem shaped_remove_reaction (a m : String) (s : Option String)
    (tr : Outcome SentMessage) : envelopeShaped (remove_reaction a m s tr).1 := by
  cases tr with
  | raise msg => exact envelopeShaped_error msg
  | ret result => exact envelopeShaped_success _

theorem shaped_mark_message_as_read (m : String) (s : Option String)
    (tr : Outcome SentMessage) : envelopeShaped (mark_message_as_read m s tr).1 := by
  cases tr with
  | raise msg => exact envelopeShaped_error msg
  | ret result => exact envelopeShaped_success _

theorem shaped_indicate_typing (m : String) (s : Option String)
    (tr : Outcome TypingResult) : envelopeShaped (indicate_typing m s tr).1 := by
  cases tr with
  | raise msg => exact envelopeShaped_error msg
  | ret result => exact envelopeShaped_success _

theorem shaped_upload_media (m : String) (mt : Option String)
    (tr : Outcome MediaObj) : envelopeShaped (upload_media m mt tr).1 := by
  cases tr with
  | raise msg => exact envelopeShaped_error msg
  | ret result => exact envelopeShaped_success _

theorem shaped_send_template (a n l : String) (ps : Option (List ParamDict))
    (rid : Option String) (tr : Outcome SentMessage) :
    envelopeShaped (send_template a n l ps rid tr).1 := by
  cases tr with
  | raise msg => exact envelopeShaped_error msg
  | ret result => exact envelopeShaped_success _

theorem shaped_get_templates (l : Int) (n : Option String)
    (tr : Outcome (List TemplateObj)) : envelopeShaped (get_templates l n tr).1 := by
  cases tr with
  | raise msg => exact envelopeShaped_error msg
  | ret result => exact envelopeShaped_success _

theorem shaped_send_message_with_buttons (a text : String) (bs : List BtnDict)
    (h f rid : Option String) (tr : Outcome SentMessage) :
    envelopeShaped (send_message_with_buttons a text bs h f rid tr).1 := by
  unfold send_message_with_buttons
  repeat' split
  all_goals first
    | exact envelopeShaped_error _
    | exact envelopeShaped_success _

theorem shaped_send_message_with_list (a text bt : String)
    (ss : List SectionDict) (h f rid : Option String) (tr : Outcome SentMessage) :
    envelopeShaped (send_message_with_list a text bt ss h f rid tr).1 := by
  unfold send_message_with_list
  repeat' split
  all_goals first
    | exact envelopeShaped_error _
    | exact envelopeShaped_success _

/-- Claim C1 counterexample: when the transport raises an exception whose
string rendering is empty (as Python `Exception()` does), `send_message`
returns `{"success": False, "error": ""}`, whose `error` field is the empty
string — so the claimed envelope (failure always carries a NON-EMPTY error
string) does not hold. -/
theorem claim_C1_counterexample :
    ¬ envelopeWellFormed
        (send_message "+15551234567" "hello" none none false none
          (Outcome.raise "")).1 := by
  intro h
  rcases h with h | ⟨_, m, hm, he⟩
  · have h1 : lookupField
        (send_message "+15551234567" "hello" none none false none
          (Outcome.raise "")).1 "success" = some (RVal.bool false) := rfl
    rw [h1] at h
    simp at h
  · have h2 : lookupField
        (send_message "+15551234567" "hello" none none false none
          (Outcome.raise "")).1 "error" = some (RVal.str "") := rfl
    rw [h2] at he
    simp at he
    exact hm he.symm

/-- Claim C1 (amended): every operation handler is total at its boundary
(each is a total Lean function of its input and the transport behaviour,
returning a dictionary), and for every input and every transport behaviour
the returned dictionary is either a success envelope containing
`success: true`, or a failure envelope containing `success: false` together
with a string field `error` — the error string equals the stringified
raised exception and so may be empty when the exception carries no message;
no third shape exists. -/
theorem claim_C1_total_envelope :
    (∀ a b h f p rid tr, envelopeShaped (send_message a b h f p rid tr).1) ∧
    (∀ a b c f rid tr, envelopeShaped (send_image a b c f rid tr).1) ∧
    (∀ a b c f rid tr, envelopeShaped (send_video a b c f rid tr).1) ∧
    (∀ a b fn c f rid tr, envelopeShaped (send_document a b fn c f rid tr).1) ∧
    (∀ a b rid tr, envelopeShaped (send_audio a b rid tr).1) ∧
    (∀ a b rid tr, envelopeShaped (send_sticker a b rid tr).1) ∧
    (∀ a la lo n ad rid tr, envelopeShaped (send_location a la lo n ad rid tr).1) ∧
    (∀ a b rid tr, envelopeShaped (request_location a b rid tr).1) ∧
    (∀ a n p rid tr, envelopeShaped (send_contact a n p rid tr).1) ∧
    (∀ a e m s tr, envelopeShaped (send_reaction a e m s tr).1) ∧
    (∀ a m s tr, envelopeShaped (remove_reaction a m s tr).1) ∧
    (∀ m s tr, envelopeShaped (mark_message_as_read m s tr).1) ∧
    (∀ m s tr, envelopeShaped (indicate_typing m s tr).1) ∧
    (∀ m mt tr, envelopeShaped (upload_media m mt tr).1) ∧
    (∀ a b bs h f rid tr, envelopeShaped (send_message_with_buttons a b bs h f rid tr).1) ∧
    (∀ a b bt ss h f rid tr, envelopeShaped (send_message_with_list a b bt ss h f rid tr).1) ∧
    (∀ a n l ps rid tr, envelopeShaped (send_template a n l ps rid tr).1) ∧
    (∀ l n tr, envelopeShaped (get_templates l n tr).1) :=
  ⟨shaped_send_message, shaped_send_image, shaped_send_video,
   shaped_send_document, shaped_send_audio, shaped_send_sticker,
   shaped_send_location, shaped_request_location, shaped_send_contact,
   shaped_send_reaction, shaped_remove_reaction, shaped_mark_message_as_read,
   shaped_indicate_typing, shaped_upload_media,
   shaped_send_message_with_buttons, shaped_send_message_with_list,
   shaped_send_template, shaped_get_templates⟩

/-- Claim C2: `send_message_with_buttons` validates in the fixed order
(1) more than 3 buttons, (2) header too long, (3) footer too long, then
(4) per button in list order: missing key, title over 20 (echoing the
title), id over 256 (echoing the id) — short-circuiting on the first
violated check; in particular any payload with 4 or more buttons yields
`{success: false, error: "Maximum 3 buttons allowed"}` with no transport
call, regardless of the buttons and of the header and footer. -/
theorem claim_C2_buttons_validation_order :
    (∀ (a text : String) (buttons : List BtnDict) (header footer rid : Option String)
        (tr : Outcome SentMessage), 4 ≤ buttons.length →
        send_message_with_buttons a text buttons header footer rid tr
          = (errorEnvelope "Maximum 3 buttons allowed", [])) ∧
    (∀ (a text : String) (buttons : List BtnDict) (header footer rid : Option String)
        (tr : Outcome SentMessage), buttons.length ≤ 3 →
        optTextTooLong 60 header = true →
        send_message_with_buttons a text buttons header footer rid tr
          = (errorEnvelope "Header text must be max 60 characters", [])) ∧
    (∀ (a text : String) (buttons : List BtnDict) (header footer rid : Option String)
        (tr : Outcome SentMessage), buttons.length ≤ 3 →
        optTextTooLong 60 header = false → optTextTooLong 60 footer = true →
        send_message_with_buttons a text buttons header footer rid tr
          = (errorEnvelope "Footer text must be max 60 characters", [])) ∧
    (∀ (a text : String) (buttons : List BtnDict) (header footer rid : Option String)
        (tr : Outcome SentMessage) (e : String), buttons.length ≤ 3 →
        optTextTooLong 60 header = false → optTextTooLong 60 footer = false →
        buildButtons buttons = Except.error e →
        send_message_with_buttons a text buttons header footer rid tr
          = (errorEnvelope e, [])) ∧
    (∀ (t : Option String) (rest : List BtnDict),
        buildButtons (⟨none, t⟩ :: rest)
          = Except.error "Each button must have \x27id\x27 and \x27title\x27 keys") ∧
    (∀ (i : Option String) (rest : List BtnDict),
        buildButtons (⟨i, none⟩ :: rest)
          = Except.error "Each button must have \x27id\x27 and \x27title\x27 keys") ∧
    (∀ (i t : String) (rest : List BtnDict), 20 < t.length →
        buildButtons (⟨some i, some t⟩ :: rest)
          = Except.error ("Button title \x27" ++ t ++ "\x27 exceeds 20 characters")) ∧
    (∀ (i t : String) (rest : List BtnDict), t.length ≤ 20 → 256 < i.length →
        buildButtons (⟨some i, some t⟩ :: rest)
          = Except.error ("Button ID \x27" ++ i ++ "\x27 exceeds 256 characters")) ∧
    (∀ (i t : String) (rest : List BtnDict), t.length ≤ 20 → i.length ≤ 256 →
        buildButtons (⟨some i, some t⟩ :: rest)
          = (buildButtons rest).map (fun bs => ⟨t, i⟩ :: bs)) := by
  refine ⟨?_, ?_, ?_, ?_, ?_, ?_, ?_, ?_, ?_⟩
  · intro a text buttons header footer rid tr h4
    unfold send_message_with_buttons
    repeat' split
    all_goals first | rfl | omega
  · intro a text buttons header footer rid tr hlen hh
    unfold send_message_with_buttons
    repeat' split
    all_goals first | omega | simp_all
  · intro a text buttons header footer rid tr hlen hh hf
    unfold send_message_with_buttons
    repeat' split
    all_goals first | rfl | omega | simp_all
  · intro a text buttons header footer rid tr e hlen hh hf hbb
    unfold send_message_with_buttons
    repeat' split
    all_goals first | rfl | omega | simp_all
  · intro t rest
    cases t <;> rfl
  · intro i rest
    cases i <;> rfl
  · intro i t rest ht
    simp only [buildButtons]
    rw [if_pos ht]
  · intro i t rest ht hi
    simp only [buildButtons]
    rw [if_neg (by omega), if_pos hi]
  · intro i t rest ht hi
    simp only [buildButtons]
    rw [if_neg (by omega), if_neg (by omega)]

/-- Claim C2 witness: a concrete 4-button payload (with an over-long header
and an invalid button, which are not reached) fails with exactly the
maximum-buttons error and no transport call. -/
theorem claim_C2_witness :
    4 ≤ ([⟨some "a", some "A"⟩, ⟨some "b", some "B"⟩, ⟨some "c", some "C"⟩,
          ⟨none, none⟩] : List BtnDict).length ∧
    send_message_with_buttons "+15551234567" "pick one"
      [⟨some "a", some "A"⟩, ⟨some "b", some "B"⟩, ⟨some "c", some "C"⟩, ⟨none, none⟩]
      (some (String.mk (List.replicate 99 (Char.ofNat 104)))) none none
      (Outcome.ret ⟨true, some "m1", "obj"⟩)
      = (errorEnvelope "Maximum 3 buttons allowed", []) :=
  ⟨by decide,
   claim_C2_buttons_validation_order.1 "+15551234567" "pick one" _ _ none none _
     (by decide)⟩

/-- Claim C3 counterexample: a row whose `description` is the empty string
is built with `description = None` — the resulting `SectionRow` carries no
description at all, not the literal string "no description" the claim
names. -/
theorem claim_C3_counterexample :
    buildRows [⟨some "r1", some "T", some ""⟩]
      = Except.ok [{ title := "T", callback_data := "r1", description := none }] ∧
    ¬ buildRows [⟨some "r1", some "T", some ""⟩]
        = Except.ok
            [{ title := "T", callback_data := "r1",
               description := some "no description" }] := by
  constructor
  · rfl
  · intro h
    rw [show buildRows [⟨some "r1", some "T", some ""⟩]
          = Except.ok [{ title := "T", callback_data := "r1", description := none }]
        from rfl] at h
    simp at h

/-- Claim C3 (amended): in `send_message_with_list` a row description
defaults to the empty string when the key is absent, and a row whose
description is empty is normalized so that the built `SectionRow` carries
no description at all (`None`) rather than an empty string; a non-empty
in-range description is kept as is. -/
theorem claim_C3_empty_description_none :
    ∀ (i t : String) (rest : List RowDict), i.length ≤ 200 → t.length ≤ 24 →
      (buildRows (⟨some i, some t, none⟩ :: rest)
         = (buildRows rest).map (fun rs => ⟨t, i, none⟩ :: rs)) ∧
      (buildRows (⟨some i, some t, some ""⟩ :: rest)
         = (buildRows rest).map (fun rs => ⟨t, i, none⟩ :: rs)) ∧
      (∀ d : String, d ≠ "" → d.length ≤ 72 →
         buildRows (⟨some i, some t, some d⟩ :: rest)
           = (buildRows rest).map (fun rs => ⟨t, i, some d⟩ :: rs)) := by
  intro i t rest hi ht
  refine ⟨?_, ?_, ?_⟩
  · simp only [buildRows]
    rw [if_neg (by omega), if_neg (by omega)]
    rfl
  · simp only [buildRows]
    rw [if_neg (by omega), if_neg (by omega)]
    rfl
  · intro d hd hdl
    simp only [buildRows]
    rw [if_neg (by omega), if_neg (by omega)]
    have h1 : ((⟨some i, some t, some d⟩ : RowDict).description.getD "") = d := rfl
    rw [h1, if_neg (by omega)]
    have h2 : (d == "") = false := by
      simp [hd]
    rw [h2]
    rfl

/-- Claim C3 witness: the amended statement at a concrete row — missing and
empty descriptions both normalize to `None`, a real description is kept. -/
theorem claim_C3_witness :
    buildRows [⟨some "r1", some "T", none⟩]
      = Except.ok [{ title := "T", callback_data := "r1", description := none }] ∧
    buildRows [⟨some "r1", some "T", some ""⟩]
      = Except.ok [{ title := "T", callback_data := "r1", description := none }] ∧
    buildRows [⟨some "r1", some "T", some "tasty"⟩]
      = Except.ok
          [{ title := "T", callback_data := "r1", description := some "tasty" }] :=
  ⟨(claim_C3_empty_description_none "r1" "T" [] (by decide) (by decide)).1,
   (claim_C3_empty_description_none "r1" "T" [] (by decide) (by decide)).2.1,
   (claim_C3_empty_description_none "r1" "T" [] (by decide) (by decide)).2.2
     "tasty" (by decide) (by decide)⟩

/-- Claim C4: the total row count of `send_message_with_list` is the sum of
the raw (pre-filtering) `rows` arrays, a section lacking a `rows` key
contributing zero, and the aggregate over-10 check fires before any
per-section or per-row field validation — so, with the earlier
section-count, button-text, header and footer checks passing, a payload
whose raw total exceeds 10 fails with the too-many-rows error even when a
section is structurally invalid or its rows would fail per-row checks. -/
theorem claim_C4_raw_row_count :
    (∀ (a text bt : String) (sections : List SectionDict)
        (header footer rid : Option String) (tr : Outcome SentMessage),
        sections.length ≤ 10 → bt.length ≤ 20 →
        optTextTooLong 60 header = false → optTextTooLong 60 footer = false →
        10 < totalRawRows sections →
        send_message_with_list a text bt sections header footer rid tr
          = (errorEnvelope "Maximum 10 rows total across all sections", [])) ∧
    (∀ sections : List SectionDict,
        totalRawRows sections
          = (sections.map (fun section_data => (section_data.rows.getD []).length)).sum) ∧
    (∀ (t : Option String) (rest : List SectionDict),
        totalRawRows (⟨t, none⟩ :: rest) = totalRawRows rest) := by
  refine ⟨?_, ?_, ?_⟩
  · intro a text bt sections header footer rid tr hs hb hh hf h10
    unfold send_message_with_list
    repeat' split
    all_goals first | rfl | omega | simp_all
  · intro sections
    rfl
  · intro t rest
    simp [totalRawRows]

/-- Claim C4 witness: a payload whose raw rows total 11, spread over one
section with no `rows` key (contributing zero) and one section of 11 rows
that are each missing their required keys, fails with exactly the
too-many-rows error and no transport call. -/
theorem claim_C4_witness :
    10 < totalRawRows
        [⟨some "A", none⟩, ⟨some "B", some (List.replicate 11 ⟨none, none, none⟩)⟩] ∧
    send_message_with_list "+15551234567" "menu" "Go"
      [⟨some "A", none⟩, ⟨some "B", some (List.replicate 11 ⟨none, none, none⟩)⟩]
      none none none (Outcome.ret ⟨true, some "m1", "obj"⟩)
      = (errorEnvelope "Maximum 10 rows total across all sections", []) :=
  ⟨by decide,
   claim_C4_raw_row_count.1 "+15551234567" "menu" "Go" _ none none none _
     (by decide) (by decide) rfl rfl (by decide)⟩

theorem buildSections_rows_nonempty :
    ∀ (sections : List SectionDict) (secs : List Section),
      buildSections sections = Except.ok secs → ∀ s ∈ secs, s.rows ≠ [] := by
  intro sections
  induction sections with
  | nil =>
    intro secs h
    have h2 : Except.ok ([] : List Section) = Except.ok secs := h
    have h3 : secs = [] := by
      cases h2
      rfl
    subst h3
    intro s hs
    simp at hs
  | cons sd rest ih =>
    intro secs h
    unfold buildSections at h
    cases hrow : sd.rows with
    | none =>
      rw [hrow] at h
      simp at h
    | some rowDicts =>
      simp only [hrow] at h
      by_cases htitle : (sd.title.getD "").length > 24
      · rw [if_pos htitle] at h
        simp at h
      · rw [if_neg htitle] at h
        cases hbr : buildRows rowDicts with
        | error e =>
          rw [hbr] at h
          simp at h
        | ok rows =>
          rw [hbr] at h
          cases hbs : buildSections rest with
          | error e =>
            rw [hbs] at h
            simp [Except.map] at h
          | ok ss =>
            rw [hbs] at h
            simp only [Except.map, Except.ok.injEq] at h
            cases hempty : rows.isEmpty with
            | true =>
              rw [hempty] at h
              simp only [if_true] at h
              subst h
              exact ih ss hbs
            | false =>
              rw [hempty] at h
              simp only [Bool.false_eq_true, if_false] at h
              subst h
              intro s hs
              rcases List.mem_cons.mp hs with hs | hs
              · subst hs
                intro hnil
                have hnil2 : rows = [] := hnil
                rw [hnil2] at hempty
                simp at hempty
              · exact ih ss hbs s hs

/-- Claim C5: every section in the normalized `SectionList` handed to the
transport by `send_message_with_list` has at least one row — zero-row
sections pass validation but are excluded instead of erroring — and the
concrete payload with one zero-row section and one 2-row section (within
the caps) dispatches a normalized `SectionList` with exactly one section. -/
theorem claim_C5_sections_nonempty :
    (∀ (sections : List SectionDict) (secs : List Section),
        buildSections sections = Except.ok secs → ∀ s ∈ secs, s.rows ≠ []) ∧
    send_message_with_list "+15551234567" "menu" "View"
        [⟨some "Empty", some []⟩,
         ⟨some "Main", some [⟨some "r1", some "T1", none⟩,
                             ⟨some "r2", some "T2", none⟩]⟩]
        none none none (Outcome.ret ⟨true, some "m7", "obj"⟩)
      = (successEnvelope (some "m7"),
         [⟨"+15551234567", "menu",
           ⟨"View", [⟨"Main", [⟨"T1", "r1", none⟩, ⟨"T2", "r2", none⟩]⟩]⟩,
           none, none, none⟩]) ∧
    (⟨"View", [⟨"Main", [⟨"T1", "r1", none⟩, ⟨"T2", "r2", none⟩]⟩]⟩
        : SectionList).sections.length = 1 :=
  ⟨buildSections_rows_nonempty, rfl, rfl⟩

/-- Claim C5 witness: the invariant applied to the concrete two-section
payload of the claim — its normalization succeeds with a single section
whose row list is non-empty. -/
theorem claim_C5_witness :
    buildSections
        [⟨some "Empty", some []⟩,
         ⟨some "Main", some [⟨some "r1", some "T1", none⟩,
                             ⟨some "r2", some "T2", none⟩]⟩]
      = Except.ok [⟨"Main", [⟨"T1", "r1", none⟩, ⟨"T2", "r2", none⟩]⟩] ∧
    (⟨"Main", [⟨"T1", "r1", none⟩, ⟨"T2", "r2", none⟩]⟩ : Section).rows ≠ [] :=
  ⟨rfl,
   claim_C5_sections_nonempty.1
     [⟨some "Empty", some []⟩,
      ⟨some "Main", some [⟨some "r1", some "T1", none⟩,
                          ⟨some "r2", some "T2", none⟩]⟩]
     [⟨"Main", [⟨"T1", "r1", none⟩, ⟨"T2", "r2", none⟩]⟩] rfl
     ⟨"Main", [⟨"T1", "r1", none⟩, ⟨"T2", "r2", none⟩]⟩ (by simp)⟩

theorem buildButtons_ok_of_valid (buttons : List BtnDict)
    (h : ∀ b ∈ buttons, ∃ i t, b.id = some i ∧ b.title = some t ∧
           t.length ≤ 20 ∧ i.length ≤ 256) :
    buildButtons buttons
      = Except.ok (buttons.map
          (fun b => ⟨b.title.getD "", b.id.getD ""⟩)) := by
  induction buttons with
  | nil => rfl
  | cons b rest ih =>
    obtain ⟨i, t, hid, htit, ht, hi⟩ := h b (by simp)
    have ihr := ih (fun x hx => h x (by simp [hx]))
    simp only [buildButtons, hid, htit]
    rw [if_neg (by omega), if_neg (by omega), ihr]
    simp [Except.map, hid, htit]

/-- Claim C6: for every button list of length at most 3 whose buttons all
have `id` and `title` keys with in-range lengths (and header and footer
passing their checks), validation succeeds: the normalized button list has
the same length and order as the input, each button `id` becoming
`callback_data` and each `title` the title; the transport is invoked
exactly once with that list, and a transport return yields the success
envelope carrying the extracted message id. -/
theorem claim_C6_valid_buttons_dispatch :
    ∀ (a text : String) (buttons : List BtnDict) (header footer rid : Option String)
      (r : SentMessage),
      buttons.length ≤ 3 →
      (∀ b ∈ buttons, ∃ i t, b.id = some i ∧ b.title = some t ∧
         t.length ≤ 20 ∧ i.length ≤ 256) →
      optTextTooLong 60 header = false → optTextTooLong 60 footer = false →
      buildButtons buttons
        = Except.ok (buttons.map (fun b => ⟨b.title.getD "", b.id.getD ""⟩)) ∧
      (buttons.map (fun b : BtnDict =>
          (⟨b.title.getD "", b.id.getD ""⟩ : Button))).length = buttons.length ∧
      send_message_with_buttons a text buttons header footer rid (Outcome.ret r)
        = (successEnvelope (extractMessageId r),
           [⟨a, text, buttons.map (fun b => ⟨b.title.getD "", b.id.getD ""⟩),
             header, footer, rid⟩]) := by
  intro a text buttons header footer rid r hlen hval hh hf
  have hbb := buildButtons_ok_of_valid buttons hval
  refine ⟨hbb, by simp, ?_⟩
  unfold send_message_with_buttons
  rw [if_neg (by omega)]
  simp only [hh, hf, Bool.false_eq_true, if_false, hbb]

/-- Claim C6 witness: the concrete scenario of the spec — two valid
buttons, no header or footer — dispatches the 2-element normalized list in
order and returns the success envelope with the transport message id. -/
theorem claim_C6_witness :
    buildButtons [⟨some "o1", some "Yes"⟩, ⟨some "o2", some "No"⟩]
      = Except.ok [⟨"Yes", "o1"⟩, ⟨"No", "o2"⟩] ∧
    send_message_with_buttons "+1234567890" "Choose"
      [⟨some "o1", some "Yes"⟩, ⟨some "o2", some "No"⟩] none none none
      (Outcome.ret ⟨true, some "MSG1", "obj"⟩)
      = (successEnvelope (some "MSG1"),
         [⟨"+1234567890", "Choose", [⟨"Yes", "o1"⟩, ⟨"No", "o2"⟩],
           none, none, none⟩]) := by
  have hval : ∀ b ∈ ([⟨some "o1", some "Yes"⟩, ⟨some "o2", some "No"⟩] : List BtnDict),
      ∃ i t, b.id = some i ∧ b.title = some t ∧ t.length ≤ 20 ∧ i.length ≤ 256 := by
    intro b hb
    rcases List.mem_cons.mp hb with hb | hb
    · exact ⟨"o1", "Yes", by rw [hb], by rw [hb], by decide, by decide⟩
    · rcases List.mem_cons.mp hb with hb | hb
      · exact ⟨"o2", "No", by rw [hb], by rw [hb], by decide, by decide⟩
      · simp at hb
  have h := claim_C6_valid_buttons_dispatch "+1234567890" "Choose"
    [⟨some "o1", some "Yes"⟩, ⟨some "o2", some "No"⟩] none none none
    ⟨true, some "MSG1", "obj"⟩ (by decide) hval rfl rfl
  exact ⟨h.1, h.2.2⟩

theorem extractMessageId_eq_specPolicy :
    ∀ result : SentMessage, extractMessageId result = specMessageIdPolicy result := by
  intro result
  obtain ⟨tru, ia, st⟩ := result
  cases tru <;> cases ia <;> rfl

/-- Claim C7: the identifier a handler reports in its success envelope is
determined by the spec policy over the transport return value — a falsy or
absent return value yields `null`, otherwise the exposed `id` attribute
when present, else the string rendering of the whole return value; this
holds for `send_message` and for `send_message_with_buttons` whenever its
validation lets the call through. -/
theorem claim_C7_message_id_policy :
    (∀ result : SentMessage, extractMessageId result = specMessageIdPolicy result) ∧
    (∀ (a b : String) (h f : Option String) (p : Bool) (rid : Option String)
        (result : SentMessage),
        lookupField (send_message a b h f p rid (Outcome.ret result)).1 "message_id"
          = some (optRVal (specMessageIdPolicy result))) ∧
    (∀ (a b : String) (buttons : List BtnDict) (h f rid : Option String)
        (result : SentMessage) (bs : List Button),
        ¬ buttons.length > 3 → optTextTooLong 60 h = false →
        optTextTooLong 60 f = false → buildButtons buttons = Except.ok bs →
        lookupField
            (send_message_with_buttons a b buttons h f rid (Outcome.ret result)).1
            "message_id"
          = some (optRVal (specMessageIdPolicy result))) := by
  refine ⟨extractMessageId_eq_specPolicy, ?_, ?_⟩
  · intro a b h f p rid result
    have e1 : lookupField (send_message a b h f p rid (Outcome.ret result)).1
        "message_id" = some (optRVal (extractMessageId result)) := rfl
    rw [e1, extractMessageId_eq_specPolicy]
  · intro a b buttons h f rid result bs h3 hh hf hbb
    unfold send_message_with_buttons
    rw [if_neg h3]
    simp only [hh, hf, Bool.false_eq_true, if_false, hbb]
    have e2 : ∀ x, lookupField (successEnvelope x) "message_id"
        = some (optRVal x) := fun x => rfl
    rw [e2, extractMessageId_eq_specPolicy]

/-- Claim C7 witness: a truthy transport return value without an `id`
attribute makes the buttons handler report the string rendering of the
whole return value as the message id. -/
theorem claim_C7_witness :
    lookupField
        (send_message_with_buttons "+15551234567" "choose" [] none none none
          (Outcome.ret ⟨true, none, "rawobj"⟩)).1 "message_id"
      = some (optRVal (specMessageIdPolicy ⟨true, none, "rawobj"⟩)) :=
  claim_C7_message_id_policy.2.2 "+15551234567" "choose" [] none none none
    ⟨true, none, "rawobj"⟩ [] (by decide) rfl rfl rfl

/-- Claim C8 counterexample: with an empty recipient string, `send_message`
does not fail — the transport is invoked (the call list is non-empty and
carries the empty recipient) and a transport return yields a success
envelope, contradicting the claimed empty-recipient validation failure. -/
theorem claim_C8_counterexample :
    send_message "" "hello" none none false none
        (Outcome.ret ⟨true, some "m1", "obj"⟩)
      = ([("success", RVal.bool true), ("message_id", RVal.str "m1"),
          ("to", RVal.str "")],
         [⟨"", "hello", none, none, false, none⟩]) ∧
    (send_message "" "hello" none none false none
        (Outcome.ret ⟨true, some "m1", "obj"⟩)).2 ≠ [] :=
  ⟨rfl, by decide⟩

/-- Claim C8 (amended): send operations perform no validation of the
recipient at all — every recipient string, the empty string included, is
passed unchanged to the transport; `send_message`, `send_image` and
`send_audio` always invoke the transport exactly once with the given
recipient, and every transport call the interactive handlers make carries
the given recipient unchanged.  Recipient format correctness is left
entirely to the transport. -/
theorem claim_C8_no_recipient_validation :
    (∀ (a b : String) (h f : Option String) (p : Bool) (rid : Option String)
        (tr : Outcome SentMessage),
        (send_message a b h f p rid tr).2 = [⟨a, b, h, f, p, rid⟩]) ∧
    (∀ (a b : String) (c f rid : Option String) (tr : Outcome SentMessage),
        (send_image a b c f rid tr).2 = [⟨a, b, c, f, rid⟩]) ∧
    (∀ (a b : String) (rid : Option String) (tr : Outcome SentMessage),
        (send_audio a b rid tr).2 = [⟨a, b, rid⟩]) ∧
    (∀ (a b : String) (buttons : List BtnDict) (h f rid : Option String)
        (tr : Outcome SentMessage) (c : ButtonsCall),
        c ∈ (send_message_with_buttons a b buttons h f rid tr).2 →
        ButtonsCall.«to» c = a) ∧
    (∀ (a b bt : String) (sections : List SectionDict) (h f rid : Option String)
        (tr : Outcome SentMessage) (c : ListCall),
        c ∈ (send_message_with_list a b bt sections h f rid tr).2 →
        ListCall.«to» c = a) := by
  refine ⟨?_, ?_, ?_, ?_, ?_⟩
  · intro a b h f p rid tr
    cases tr <;> rfl
  · intro a b c f rid tr
    cases tr <;> rfl
  · intro a b rid tr
    cases tr <;> rfl
  · intro a b buttons h f rid tr c hc
    unfold send_message_with_buttons at hc
    repeat' split at hc
    all_goals simp_all
  · intro a b bt sections h f rid tr c hc
    unfold send_message_with_list at hc
    repeat' split at hc
    all_goals simp_all

/-- Claim C8 witness: the buttons handler with the empty recipient and an
empty (hence valid) button list makes exactly one transport call, and that
call carries the empty recipient unchanged. -/
theorem claim_C8_witness :
    ButtonsCall.«to» (⟨"", "txt", [], none, none, none⟩ : ButtonsCall) = "" :=
  claim_C8_no_recipient_validation.2.2.2.1 "" "txt" [] none none none
    (Outcome.ret ⟨true, none, "obj"⟩) ⟨"", "txt", [], none, none, none⟩
    (by decide)

/-- Claim C9: when either credential is absent (or empty) in the process
environment, client construction fails with the configuration error and no
tools are registered; when both are present, the client is constructed once
from the two values and all 18 tools are registered against that single
client. -/
theorem claim_C9_startup_configuration :
    (∀ env : Env,
        envFalsy env.WHATSAPP_PHONE_ID = true ∨ envFalsy env.WHATSAPP_TOKEN = true →
        get_whatsapp_client env
          = Except.error
              "Missing required environment variables: WHATSAPP_PHONE_ID and WHATSAPP_TOKEN" ∧
        serverStartup env = ⟨none, []⟩) ∧
    (∀ env : Env,
        envFalsy env.WHATSAPP_PHONE_ID = false → envFalsy env.WHATSAPP_TOKEN = false →
        get_whatsapp_client env
          = Except.ok ⟨env.WHATSAPP_PHONE_ID.getD "", env.WHATSAPP_TOKEN.getD ""⟩ ∧
        serverStartup env
          = ⟨some ⟨env.WHATSAPP_PHONE_ID.getD "", env.WHATSAPP_TOKEN.getD ""⟩,
             allToolNames⟩) := by
  constructor
  · intro env h
    have hcond : (envFalsy env.WHATSAPP_PHONE_ID || envFalsy env.WHATSAPP_TOKEN)
        = true := by
      rcases h with h | h <;> simp [h]
    have h1 : get_whatsapp_client env
        = Except.error
            "Missing required environment variables: WHATSAPP_PHONE_ID and WHATSAPP_TOKEN" := by
      unfold get_whatsapp_client
      rw [if_pos hcond]
    refine ⟨h1, ?_⟩
    unfold serverStartup
    rw [h1]
  · intro env h1 h2
    have hg : get_whatsapp_client env
        = Except.ok ⟨env.WHATSAPP_PHONE_ID.getD "", env.WHATSAPP_TOKEN.getD ""⟩ := by
      unfold get_whatsapp_client
      rw [if_neg (by simp [h1, h2])]
    refine ⟨hg, ?_⟩
    unfold serverStartup
    rw [hg]

/-- Claim C9 witness: a missing phone id yields no registered tools; both
credentials present yield the single client and the full tool surface. -/
theorem claim_C9_witness :
    serverStartup ⟨none, some "tok"⟩ = ⟨none, []⟩ ∧
    serverStartup ⟨some "ph1", some "tok"⟩ = ⟨some ⟨"ph1", "tok"⟩, allToolNames⟩ :=
  ⟨(claim_C9_startup_configuration.1 ⟨none, some "tok"⟩ (Or.inl rfl)).2,
   (claim_C9_startup_configuration.2 ⟨some "ph1", some "tok"⟩ rfl rfl).2⟩

/-- Claim C10: whenever the `indicate_typing` transport call returns — even
a result whose own `success` attribute is false or whose value is falsy —
the envelope is `{success: true, typing_indicated: <the result.success
attribute, or the result truthiness when it is absent>, message_id: <the
input message id echoed back>}`; the top-level `success` field reflects
only that the call returned. -/
theorem claim_C10_indicate_typing_envelope :
    ∀ (mid : String) (sender : Option String) (result : TypingResult),
      indicate_typing mid sender (Outcome.ret result)
        = ([("success", RVal.bool true),
            ("typing_indicated",
             RVal.bool (result.successAttr.getD result.truthy)),
            ("message_id", RVal.str mid)],
           [⟨mid, sender⟩]) ∧
      lookupField (indicate_typing mid sender (Outcome.ret result)).1 "success"
        = some (RVal.bool true) := by
  intro mid sender result
  exact ⟨rfl, rfl⟩
